import Mathlib

/-!
# Verification of the health-scan gating engine

A shallow embedding of `src/server/index.js` (the `POST
/api/health-scores/trigger` handler and its helpers) of the
health-scan-demo repository, together with theorems settling the
specification claims about it.

The Redis store is modelled as the slice of keys the handler can touch for
one `(mc_id, section)` pair: the cooldown marker `user:{mc_id}:cooldown`,
the rolling counter `user:{mc_id}:count`, the entitlement cache
`user:{mc_id}:features` and the in-flight lock `user:lock:{mc_id}:{section}`.
Each present key carries its value and its remaining TTL (`none` = no
expiry, mirroring a Redis `SET` without `EX`).  `redis.ttl` semantics
(-2 for an absent key, -1 for a key without expiry) are reproduced by
`ttlOf`.

The JSON reference files (`accounts.json`, `policies.json`,
`features.json`, `keywords.json`) are external data read at startup; they
enter the model as an abstract `Env` of lookup functions, universally
quantified in the theorems.
-/

/-- A present Redis key: its stored value and remaining TTL
(`none` = the key has no expiry). -/
structure KeyState (α : Type) where
  val : α
  ttl : Option Nat
deriving DecidableEq, Repr

/-- The entitlement snapshot as the handler reads it back:
`feats?.[section]?.enabled === true` and `Number(feats?.scans_allowed ?? 0)`
for the requested section. -/
structure Feats where
  enabled : Bool
  scans_allowed : Nat
deriving DecidableEq, Repr

/-- The store slice for one `(mc_id, section)` pair: cooldown marker,
rolling usage counter, cached entitlement snapshot and in-flight lock. -/
structure Store where
  cooldown : Option (KeyState String)
  count : Option (KeyState Nat)
  features : Option (KeyState Feats)
  lock : Option (KeyState String)
deriving DecidableEq, Repr

/-- Semantics of `redis.ttl`: -2 when the key is absent, -1 when it has no
expiry, otherwise the remaining TTL in seconds. -/
def ttlOf {α : Type} : Option (KeyState α) → Int
  | none => -2
  | some k => match k.ttl with
    | none => -1
    | some n => (n : Nat)

/-- A per-account override entry of `features.json`; spread over the base
snapshot (`{...base, ...FEATURES_FILE[mc_id]}`), so each present field
shadows the derived one. -/
structure FeatOverride where
  enabled : Option Bool
  scans_allowed : Option Nat
deriving DecidableEq, Repr

/-- The external reference data of `src/server/index.js` (the JSON files
loaded at startup), as abstract lookups. -/
structure Env where
  /-- Lookup `ACCOUNTS.find(a => a.mc_id === mc_id)?.package`. -/
  accountPackage : String → Option String
  /-- Lookup `POLICIES.packages[pkg]?.scans_allowed`. -/
  policyScansAllowed : String → Option Nat
  /-- Lookup `POLICIES.sections[section]?.enabled_for || []`. -/
  sectionEnabledFor : String → List String
  /-- Lookup `FEATURES_FILE[mc_id]`. -/
  featuresOverride : String → Option FeatOverride
  /-- Lookup `KEYWORDS[t]`. -/
  keywords : String → Option String

/-- The configuration knobs `COOLDOWN_SECONDS` and
`ROLLING_WINDOW_SECONDS`. -/
structure Config where
  cooldownSeconds : Nat
  windowSeconds : Nat
deriving DecidableEq, Repr

/-- The `reason` field of a trigger response. -/
inductive Reason where
  | OK
  | REQ_MISSING_FIELD
  | NOT_IN_PACKAGE
  | NOT_AUTHORIZED
  | COOLDOWN
  | SCAN_QUOTA_EXCEEDED
  | IN_FLIGHT
deriving DecidableEq, Repr

/-- The response fields of the trigger endpoint that the gating engine
determines.  `cooldown_ttl` stands for `cooldown_expires_at` (which the
code renders as now + TTL·1000); absent JSON fields are `none`.  The
opaque randomized `report` is outside the model. -/
structure Resp where
  accepted : Bool
  reason : Reason
  enabled : Option Bool
  eligible_now : Option Bool
  real_eligible_now : Option Bool
  cooldown_active : Option Bool
  cooldown_ttl : Option Int
  scans_allowed : Option Nat
  scans_used_in_window : Option Nat
  products : Option (List String)
deriving DecidableEq, Repr

/-- A response skeleton: all optional fields absent. -/
def baseResp (a : Bool) (r : Reason) : Resp :=
  ⟨a, r, none, none, none, none, none, none, none, none⟩

/-- The store operations executed inside the lock-protected critical
section (`redis.incr`, `redis.expire`, the cooldown `redis.set`); any of
them may fail, exercising the `try/finally`. -/
inductive CritOp where
  | incrCount
  | expireCount
  | setCooldown
deriving DecidableEq, Repr

/-- Result of one handler run: the produced response, or the critical
section operation whose failure propagated out of the `try` block. -/
inductive Outcome where
  | resp (r : Resp)
  | failed (op : CritOp)
deriving DecidableEq, Repr

/-- A handler run: its outcome, the final store, and whether this request
successfully acquired the in-flight lock. -/
structure TrigOut where
  outcome : Outcome
  store : Store
  acquired : Bool
deriving DecidableEq, Repr

/-- The request body fields `mc_id`, `section` (defaulted to "insites"),
`search_terms` and `products`. -/
structure Req where
  mc_id : Option String
  sect : Option String
  search_terms : List String
  products : List String
deriving DecidableEq, Repr

/-- The JS falsy test `!mc_id` rejecting an absent or empty account id. -/
def isMissing : Option String → Bool
  | none => true
  | some m => m = ""

/-- The mode test of the handler: the `dry_run` query parameter, defaulted
to "true" when absent, compared for string equality with "true". -/
def parseDryRun (q : Option String) : Bool :=
  (q.getD "true") = "true"

/-- One character of the JS word/whitespace/hyphen class that the
punctuation-stripping replace of `normalizeProducts` keeps. -/
def jsKeptChar (c : Char) : Bool :=
  c.isAlphanum || c = '_' || c.isWhitespace || c = '-'

/-- Term normalization: lower-case, trim surrounding whitespace, strip
every character outside the word/whitespace/hyphen class. -/
def jsNormalizeTerm (s : String) : String :=
  String.mk ((((s.toList.map Char.toLower).dropWhile Char.isWhitespace).reverse.dropWhile
    Char.isWhitespace).reverse.filter jsKeptChar)

/-- The fallback lookup `KEYWORDS[t] || t`: the keyword-table image when
it is a truthy (non-empty) entry, else the term itself. -/
def kwLookup (kw : String → Option String) (t : String) : String :=
  match kw t with
  | none => t
  | some k => if k = "" then t else k

/-- Deduplication as done by `Array.from(new Set(xs))`: keep the first
occurrence of each entry, preserving insertion order. -/
def dedupFirst : List String → List String
  | [] => []
  | x :: xs => x :: (dedupFirst xs).filter (fun y => y ≠ x)

/-- The helper `normalizeProducts` of `src/server/index.js`: concatenate
search terms and products, normalize each, map through the keyword table,
deduplicate, drop falsy entries, cap at 5. -/
def normalizeProducts (kw : String → Option String)
    (search_terms products : List String) : List String :=
  let raw := (search_terms ++ products).map jsNormalizeTerm
  let mapped := raw.map (kwLookup kw)
  ((dedupFirst mapped).filter (fun s => s ≠ "")).take 5

/-- The cache-miss derivation of `getFeatures`: package tier (default
`FREE`), `scans_allowed` from the tier policy (default 0), enablement from
the `enabled_for` list of the section, then the per-account override spread on
top. -/
def computeFeatures (env : Env) (mc_id sectionName : String) : Feats :=
  let pkg := (env.accountPackage mc_id).getD "FREE"
  let scans_allowed := (env.policyScansAllowed pkg).getD 0
  let enabled := (env.sectionEnabledFor sectionName).contains pkg
  match env.featuresOverride mc_id with
  | none => ⟨enabled, scans_allowed⟩
  | some o => ⟨o.enabled.getD enabled, o.scans_allowed.getD scans_allowed⟩

/-- The resolver `getFeatures`: return the cached snapshot if present;
otherwise derive it and cache it with a plain `redis.set` (no expiry). -/
def getFeatures (env : Env) (mc_id sectionName : String) (s : Store) :
    Feats × Store :=
  match s.features with
  | some k => (k.val, s)
  | none =>
    let out := computeFeatures env mc_id sectionName
    (out, { s with features := some ⟨out, none⟩ })

/-- The critical section of the real-mode path (the `try` block): if the
counter pre-existed, `incr` it and `expire` it back to the full window;
then arm the cooldown.  `failAt` injects a failure of the named
sub-operation (which then performs no write); the result is the outcome
and the store before the `finally`. -/
def criticalSection (cfg : Config) (failAt : Option CritOp) (ttlBefore : Int)
    (scans_used : Nat) (sa : Nat) (prod : List String) (s3 : Store) :
    Outcome × Store :=
  if failAt = some CritOp.incrCount ∧ ttlBefore > 0 then
    (Outcome.failed CritOp.incrCount, s3)
  else
    let newVal := ((s3.count.map KeyState.val).getD 0) + 1
    let scans_used2 := if ttlBefore > 0 then newVal else scans_used
    let s4 := if ttlBefore > 0 then
        { s3 with count := s3.count.map (fun k => ⟨newVal, k.ttl⟩) }
      else s3
    if failAt = some CritOp.expireCount ∧ ttlBefore > 0 then
      (Outcome.failed CritOp.expireCount, s4)
    else
      let s5 := if ttlBefore > 0 then
          { s4 with count := s4.count.map (fun k => ⟨k.val, some cfg.windowSeconds⟩) }
        else s4
      if failAt = some CritOp.setCooldown then
        (Outcome.failed CritOp.setCooldown, s5)
      else
        let s6 := { s5 with cooldown := some ⟨"1", some cfg.cooldownSeconds⟩ }
        (Outcome.resp { baseResp true Reason.OK with
            enabled := some true
            eligible_now := some false
            cooldown_ttl := some (ttlOf s6.cooldown)
            scans_allowed := some sa
            scans_used_in_window := some scans_used2
            products := some prod }, s6)

/-- The handler of `POST /api/health-scores/trigger`, one request against the store slice
of its `(mc_id, section)` pair.  `corr` is the generated correlation id,
`failAt` the injected critical-section failure (`none` for a normal run). -/
def trigger (env : Env) (cfg : Config) (req : Req) (dry_run_q : Option String)
    (corr : String) (failAt : Option CritOp) (s0 : Store) : TrigOut :=
  let dry_run := parseDryRun dry_run_q
  if isMissing req.mc_id then
    ⟨Outcome.resp (baseResp false Reason.REQ_MISSING_FIELD), s0, false⟩
  else
    let mc_id := req.mc_id.getD ""
    let sectionName := req.sect.getD "insites"
    let cooldownTtl := ttlOf s0.cooldown
    let cooldown_active : Bool := decide (cooldownTtl > 0)
    let cooldown_ttl_field : Option Int :=
      if cooldown_active then some cooldownTtl else none
    let fs := getFeatures env mc_id sectionName s0
    let feats := fs.1
    let s1 := fs.2
    let enabled := feats.enabled
    let sa := feats.scans_allowed
    let authorized_real : Bool := decide (sa > 0)
    let prod := normalizeProducts env.keywords req.search_terms req.products
    if dry_run then
      let scans_used : Nat :=
        if enabled && authorized_real then
          if ttlOf s1.count > 0 then (s1.count.map KeyState.val).getD 0 else 0
        else 0
      let quota_ok : Bool := decide (scans_used < sa)
      let re : Bool := enabled && authorized_real && !cooldown_active && quota_ok
      ⟨Outcome.resp { baseResp true Reason.OK with
          enabled := some enabled
          eligible_now := some true
          real_eligible_now := some re
          cooldown_active := some cooldown_active
          cooldown_ttl := cooldown_ttl_field
          scans_allowed := some sa
          scans_used_in_window := some scans_used
          products := some prod }, s1, false⟩
    else if !enabled then
      ⟨Outcome.resp { baseResp false Reason.NOT_IN_PACKAGE with
          enabled := some false
          eligible_now := some false
          scans_allowed := some sa
          scans_used_in_window := some 0 }, s1, false⟩
    else if !authorized_real then
      ⟨Outcome.resp { baseResp false Reason.NOT_AUTHORIZED with
          enabled := some true
          eligible_now := some false
          scans_allowed := some sa
          scans_used_in_window := some 0 }, s1, false⟩
    else
      let ttlBefore := ttlOf s1.count
      let scans_used : Nat :=
        if ttlBefore > 0 then (s1.count.map KeyState.val).getD 0 else 1
      let s2 := if ttlBefore > 0 then s1
        else { s1 with count := some ⟨1, some cfg.windowSeconds⟩ }
      let quota_ok : Bool :=
        decide ((scans_used : Int) ≤ (sa : Int) - 1) || decide (ttlBefore > 0)
      let re : Bool := !cooldown_active && quota_ok
      if !re then
        ⟨Outcome.resp { baseResp false
            (if cooldown_active then Reason.COOLDOWN else Reason.SCAN_QUOTA_EXCEEDED) with
          enabled := some true
          eligible_now := some false
          cooldown_ttl := cooldown_ttl_field
          scans_allowed := some sa
          scans_used_in_window :=
            some (if ttlBefore > 0 then scans_used else 1) }, s2, false⟩
      else if s2.lock.isSome then
        ⟨Outcome.resp { baseResp false Reason.IN_FLIGHT with
            enabled := none }, s2, false⟩
      else
        let s3 := { s2 with lock := some ⟨corr, some 90⟩ }
        let body := criticalSection cfg failAt ttlBefore scans_used sa prod s3
        ⟨body.1, { body.2 with lock := none }, true⟩

/-! ## Concrete fixtures used by counterexamples and witnesses -/

/-- Reference data resolving every account to an enabled tier with
`scans_allowed = 1`, no overrides and an empty keyword table. -/
def env1 : Env :=
  { accountPackage := fun _ => some "PRO"
    policyScansAllowed := fun p => if p = "PRO" then some 1 else some 0
    sectionEnabledFor := fun _ => ["PRO"]
    featuresOverride := fun _ => none
    keywords := fun _ => none }

/-- Like `env1` but with `scans_allowed = 3`. -/
def env2 : Env :=
  { accountPackage := fun _ => some "PRO"
    policyScansAllowed := fun p => if p = "PRO" then some 3 else some 0
    sectionEnabledFor := fun _ => ["PRO"]
    featuresOverride := fun _ => none
    keywords := fun _ => none }

/-- The default configuration: 120 s cooldown, 24 h rolling window. -/
def cfg0 : Config := ⟨120, 86400⟩

/-- A minimal request body with an account id and no product terms. -/
def req1 : Req := ⟨some "A1", none, [], []⟩

/-- The empty store: no cooldown, counter, cache or lock. -/
def s0 : Store := ⟨none, none, none, none⟩

/-- A store with an active cooldown (50 s left) and no counter. -/
def sCool : Store := ⟨some ⟨"1", some 50⟩, none, none, none⟩

/-- A store where another request currently holds the in-flight lock. -/
def sLocked : Store := ⟨none, none, none, some ⟨"z", some 30⟩⟩

/-! ## Frame lemmas -/

theorem getFeatures_snd_cooldown (env : Env) (m sec : String) (s : Store) :
    ((getFeatures env m sec s).2).cooldown = s.cooldown := by
  rcases s with ⟨c, n, f, l⟩
  cases f <;> rfl

theorem getFeatures_snd_count (env : Env) (m sec : String) (s : Store) :
    ((getFeatures env m sec s).2).count = s.count := by
  rcases s with ⟨c, n, f, l⟩
  cases f <;> rfl

theorem getFeatures_snd_lock (env : Env) (m sec : String) (s : Store) :
    ((getFeatures env m sec s).2).lock = s.lock := by
  rcases s with ⟨c, n, f, l⟩
  cases f <;> rfl

/-- Any response produced by the critical section is the `OK` acceptance
carrying the normalized product list. -/
theorem criticalSection_resp (cfg : Config) (failAt : Option CritOp)
    (ttlBefore : Int) (su sa : Nat) (prod : List String) (s3 : Store) :
    ∀ r : Resp, (criticalSection cfg failAt ttlBefore su sa prod s3).1 = Outcome.resp r →
      r.accepted = true ∧ r.reason = Reason.OK ∧ r.products = some prod := by
  intro r h
  simp only [criticalSection] at h
  split_ifs at h <;>
    first
      | exact Outcome.noConfusion h
      | (rcases Outcome.resp.inj h with rfl; exact ⟨rfl, rfl, rfl⟩)


/-- The `accepted` field of a produced response (`none` for a propagated
failure). -/
def respAccepted : Outcome → Option Bool
  | Outcome.resp r => some r.accepted
  | Outcome.failed _ => none

/-- The `reason` field of a produced response (`none` for a propagated
failure). -/
def respReason : Outcome → Option Reason
  | Outcome.resp r => some r.reason
  | Outcome.failed _ => none

/-- The `products` field of a produced response (`none` for a propagated
failure). -/
def respProducts : Outcome → Option (Option (List String))
  | Outcome.resp r => some r.products
  | Outcome.failed _ => none

theorem criticalSection_accepted (cfg : Config) (failAt : Option CritOp)
    (ttlBefore : Int) (su sa : Nat) (prod : List String) (s3 : Store) :
    respAccepted (criticalSection cfg failAt ttlBefore su sa prod s3).1 = some true ∨
    respAccepted (criticalSection cfg failAt ttlBefore su sa prod s3).1 = none := by
  simp only [criticalSection]
  split_ifs <;> simp [respAccepted, baseResp]

theorem criticalSection_reason (cfg : Config) (failAt : Option CritOp)
    (ttlBefore : Int) (su sa : Nat) (prod : List String) (s3 : Store) :
    respReason (criticalSection cfg failAt ttlBefore su sa prod s3).1 = some Reason.OK ∨
    respReason (criticalSection cfg failAt ttlBefore su sa prod s3).1 = none := by
  simp only [criticalSection]
  split_ifs <;> simp [respReason, baseResp]

theorem criticalSection_products (cfg : Config) (failAt : Option CritOp)
    (ttlBefore : Int) (su sa : Nat) (prod : List String) (s3 : Store) :
    respProducts (criticalSection cfg failAt ttlBefore su sa prod s3).1 = some (some prod) ∨
    respProducts (criticalSection cfg failAt ttlBefore su sa prod s3).1 = none := by
  simp only [criticalSection]
  split_ifs <;> simp [respProducts, baseResp]

/-- Branch enumeration for one handler run `T = trigger env cfg req q corr
failAt s`: the request-shape rejection (store untouched), a dry-run
acceptance (gating keys untouched), a pre-counter rejection (gating keys
untouched), a rejection decided after the counter read (counter possibly
created with value 1 and full-window TTL when it was absent), or the lock
was acquired (and is released in the final store, with any produced
response being the `OK` acceptance carrying the normalized products). -/
theorem trigger_shape (env : Env) (cfg : Config) (req : Req) (q : Option String)
    (corr : String) (failAt : Option CritOp) (s : Store) :
    ((trigger env cfg req q corr failAt s).store = s ∧
      (trigger env cfg req q corr failAt s).acquired = false ∧
      (trigger env cfg req q corr failAt s).outcome =
        Outcome.resp (baseResp false Reason.REQ_MISSING_FIELD)) ∨
    ((trigger env cfg req q corr failAt s).acquired = false ∧
      (trigger env cfg req q corr failAt s).store.cooldown = s.cooldown ∧
      (trigger env cfg req q corr failAt s).store.count = s.count ∧
      (trigger env cfg req q corr failAt s).store.lock = s.lock ∧
      respAccepted (trigger env cfg req q corr failAt s).outcome = some true ∧
      respReason (trigger env cfg req q corr failAt s).outcome = some Reason.OK ∧
      respProducts (trigger env cfg req q corr failAt s).outcome =
        some (some (normalizeProducts env.keywords req.search_terms req.products))) ∨
    ((trigger env cfg req q corr failAt s).acquired = false ∧
      (trigger env cfg req q corr failAt s).store.cooldown = s.cooldown ∧
      (trigger env cfg req q corr failAt s).store.count = s.count ∧
      (trigger env cfg req q corr failAt s).store.lock = s.lock ∧
      respAccepted (trigger env cfg req q corr failAt s).outcome = some false ∧
      (respReason (trigger env cfg req q corr failAt s).outcome = some Reason.NOT_IN_PACKAGE ∨
        respReason (trigger env cfg req q corr failAt s).outcome = some Reason.NOT_AUTHORIZED)) ∨
    ((trigger env cfg req q corr failAt s).acquired = false ∧
      (trigger env cfg req q corr failAt s).store.cooldown = s.cooldown ∧
      (trigger env cfg req q corr failAt s).store.lock = s.lock ∧
      ((trigger env cfg req q corr failAt s).store.count = s.count ∨
        (¬ ttlOf s.count > 0 ∧
          (trigger env cfg req q corr failAt s).store.count =
            some ⟨1, some cfg.windowSeconds⟩)) ∧
      respAccepted (trigger env cfg req q corr failAt s).outcome = some false ∧
      (respReason (trigger env cfg req q corr failAt s).outcome = some Reason.COOLDOWN ∨
        respReason (trigger env cfg req q corr failAt s).outcome = some Reason.SCAN_QUOTA_EXCEEDED ∨
        respReason (trigger env cfg req q corr failAt s).outcome = some Reason.IN_FLIGHT)) ∨
    ((trigger env cfg req q corr failAt s).acquired = true ∧
      (trigger env cfg req q corr failAt s).store.lock = none ∧
      (respAccepted (trigger env cfg req q corr failAt s).outcome = some true ∨
        respAccepted (trigger env cfg req q corr failAt s).outcome = none) ∧
      (respReason (trigger env cfg req q corr failAt s).outcome = some Reason.OK ∨
        respReason (trigger env cfg req q corr failAt s).outcome = none) ∧
      (respProducts (trigger env cfg req q corr failAt s).outcome =
          some (some (normalizeProducts env.keywords req.search_terms req.products)) ∨
        respProducts (trigger env cfg req q corr failAt s).outcome = none)) := by
  simp only [trigger]
  repeat' split
  all_goals
    simp_all [getFeatures_snd_cooldown, getFeatures_snd_count, getFeatures_snd_lock,
      baseResp, respAccepted, respReason, respProducts]
  all_goals
    exact ⟨criticalSection_accepted _ _ _ _ _ _ _,
      criticalSection_reason _ _ _ _ _ _ _,
      criticalSection_products _ _ _ _ _ _ _⟩

/-! ## Properties of the product normalization -/

theorem mem_dedupFirst {a : String} : ∀ {l : List String}, a ∈ dedupFirst l → a ∈ l := by
  intro l
  induction l with
  | nil => intro h; rw [dedupFirst] at h; exact absurd h (List.not_mem_nil a)
  | cons x xs ih =>
    intro h
    rw [dedupFirst] at h
    rcases List.mem_cons.mp h with rfl | h
    · exact List.mem_cons_self _ _
    · exact List.mem_cons_of_mem _ (ih (List.mem_of_mem_filter h))

theorem nodup_dedupFirst : ∀ l : List String, (dedupFirst l).Nodup := by
  intro l
  induction l with
  | nil => rw [dedupFirst]; exact List.nodup_nil
  | cons x xs ih =>
    rw [dedupFirst]
    refine List.nodup_cons.mpr ⟨fun h => ?_, ih.filter _⟩
    have hx := List.of_mem_filter h
    simp at hx

/-! ## The `real_eligible_now` field of a produced response -/

/-- The `real_eligible_now` field of a produced response (`none` for a
propagated failure). -/
def respRealEligibleNow : Outcome → Option (Option Bool)
  | Outcome.resp r => some r.real_eligible_now
  | Outcome.failed _ => none

/-! ## Claims -/

/-- C7: a request whose body lacks the account id is rejected with
`REQ_MISSING_FIELD` and the store is untouched; since the rejection is the
same fixed response for every store `s`, no gating state (cooldown,
counter, lock or entitlement cache) is read or written. -/
theorem missing_mc_id_rejected_before_gating (env : Env) (cfg : Config) (req : Req)
    (q : Option String) (corr : String) (failAt : Option CritOp) (s : Store)
    (h : req.mc_id = none) :
    (trigger env cfg req q corr failAt s).outcome =
      Outcome.resp (baseResp false Reason.REQ_MISSING_FIELD) ∧
    (trigger env cfg req q corr failAt s).store = s := by
  have hm : isMissing req.mc_id = true := by rw [h]; rfl
  simp [trigger, hm]

/-- Witness for C7 at a concrete request with no `mc_id`, against a store
with an active cooldown. -/
theorem missing_mc_id_rejected_before_gating_witness :
    (trigger env1 cfg0 ⟨none, none, [], []⟩ (some "false") "w7" none sCool).outcome =
      Outcome.resp (baseResp false Reason.REQ_MISSING_FIELD) ∧
    (trigger env1 cfg0 ⟨none, none, [], []⟩ (some "false") "w7" none sCool).store = sCool :=
  missing_mc_id_rejected_before_gating env1 cfg0 ⟨none, none, [], []⟩
    (some "false") "w7" none sCool rfl

/-- C5: a dry-mode request never changes the value or the TTL of the
cooldown, counter or lock key. -/
theorem dry_run_preserves_gating_keys (env : Env) (cfg : Config) (req : Req)
    (q : Option String) (corr : String) (failAt : Option CritOp) (s : Store)
    (hdry : parseDryRun q = true) :
    (trigger env cfg req q corr failAt s).store.cooldown = s.cooldown ∧
    (trigger env cfg req q corr failAt s).store.count = s.count ∧
    (trigger env cfg req q corr failAt s).store.lock = s.lock := by
  by_cases hm : isMissing req.mc_id = true
  · simp [trigger, hm]
  · simp [trigger, hm, hdry, getFeatures_snd_cooldown, getFeatures_snd_count,
      getFeatures_snd_lock]

/-- Witness for C5: a dry-mode request (absent `dry_run` parameter)
against a store with an active cooldown leaves all gating keys unchanged. -/
theorem dry_run_preserves_gating_keys_witness :
    (trigger env1 cfg0 req1 none "w5" none sCool).store.cooldown = sCool.cooldown ∧
    (trigger env1 cfg0 req1 none "w5" none sCool).store.count = sCool.count ∧
    (trigger env1 cfg0 req1 none "w5" none sCool).store.lock = sCool.lock :=
  dry_run_preserves_gating_keys env1 cfg0 req1 none "w5" none sCool rfl

/-- C6: every run that successfully acquires the in-flight lock ends with
the lock deleted, on all exit paths, including an injected failure of any
critical-section sub-operation. -/
theorem acquired_lock_always_released (env : Env) (cfg : Config) (req : Req)
    (q : Option String) (corr : String) (failAt : Option CritOp) (s : Store)
    (h : (trigger env cfg req q corr failAt s).acquired = true) :
    (trigger env cfg req q corr failAt s).store.lock = none := by
  rcases trigger_shape env cfg req q corr failAt s with
    ⟨_, ha, _⟩ | ⟨ha, _⟩ | ⟨ha, _⟩ | ⟨ha, _⟩ | ⟨_, hl, _⟩
  · simp [h] at ha
  · simp [h] at ha
  · simp [h] at ha
  · simp [h] at ha
  · exact hl

/-- Witness for C6: a successful real execution (which acquired the lock)
ends with the lock key deleted; so does a run whose cooldown write fails. -/
theorem acquired_lock_always_released_witness :
    (trigger env2 cfg0 req1 (some "false") "w6" none s0).store.lock = none ∧
    (trigger env2 cfg0 req1 (some "false") "w6" (some CritOp.setCooldown) s0).store.lock =
      none :=
  ⟨acquired_lock_always_released env2 cfg0 req1 (some "false") "w6" none s0 (by decide),
    acquired_lock_always_released env2 cfg0 req1 (some "false") "w6"
      (some CritOp.setCooldown) s0 (by decide)⟩

/-- C10: a dry-mode request for an account whose entitlement snapshot is
not cached writes the derived snapshot to the features key with no expiry,
while leaving the cooldown, counter and lock keys unchanged. -/
theorem dry_run_caches_features_without_expiry (env : Env) (cfg : Config) (req : Req)
    (q : Option String) (corr : String) (failAt : Option CritOp) (s : Store) (m : String)
    (hdry : parseDryRun q = true) (hmc : req.mc_id = some m) (hm : ¬ m = "")
    (hmiss : s.features = none) :
    (trigger env cfg req q corr failAt s).store.features =
      some ⟨computeFeatures env m (req.sect.getD "insites"), none⟩ ∧
    (trigger env cfg req q corr failAt s).store.cooldown = s.cooldown ∧
    (trigger env cfg req q corr failAt s).store.count = s.count ∧
    (trigger env cfg req q corr failAt s).store.lock = s.lock := by
  have hmm : isMissing (some m) = false := by simp [isMissing, hm]
  simp [trigger, hmc, hmm, hdry, getFeatures, hmiss]

/-- Witness for C10 at a concrete account with an empty store. -/
theorem dry_run_caches_features_without_expiry_witness :
    (trigger env1 cfg0 req1 none "w10" none s0).store.features =
      some ⟨computeFeatures env1 "A1" (req1.sect.getD "insites"), none⟩ ∧
    (trigger env1 cfg0 req1 none "w10" none s0).store.cooldown = s0.cooldown ∧
    (trigger env1 cfg0 req1 none "w10" none s0).store.count = s0.count ∧
    (trigger env1 cfg0 req1 none "w10" none s0).store.lock = s0.lock :=
  dry_run_caches_features_without_expiry env1 cfg0 req1 none "w10" none s0 "A1"
    rfl rfl (by decide) rfl

/-- C9: the request mode comes from comparing the `dry_run` query
parameter with the exact string `"true"`: absent means dry-run, any other
value (such as `"1"`) selects the real, state-mutating path — here a
concrete run with `dry_run=1` acquires the lock and creates the counter. -/
theorem dry_run_flag_string_comparison (q : Option String) (v : String) :
    parseDryRun none = true ∧
    parseDryRun (some "true") = true ∧
    (¬ v = "true" → parseDryRun (some v) = false) ∧
    (parseDryRun q = true ↔ (q = none ∨ q = some "true")) ∧
    (trigger env2 cfg0 req1 (some "1") "w9" none s0).acquired = true ∧
    (trigger env2 cfg0 req1 (some "1") "w9" none s0).store.count =
      some ⟨1, some 86400⟩ := by
  refine ⟨rfl, rfl, ?_, ?_, by decide, by decide⟩
  · intro hv
    simp [parseDryRun, hv]
  · cases q with
    | none => simp [parseDryRun]
    | some a => simp [parseDryRun]

/-- Witness for C9: `"True"`, `"1"` and `"yes"` all select real mode. -/
theorem dry_run_flag_string_comparison_witness :
    parseDryRun (some "True") = false ∧
    parseDryRun (some "1") = false ∧
    parseDryRun (some "yes") = false :=
  ⟨(dry_run_flag_string_comparison none "True").2.2.1 (by decide),
    (dry_run_flag_string_comparison none "1").2.2.1 (by decide),
    (dry_run_flag_string_comparison none "yes").2.2.1 (by decide)⟩

/-- Counterexample to C2: a real-mode request rejected with `COOLDOWN`
against a store whose counter key is absent nevertheless creates the
counter key (value 1, full-window TTL) — the claim that every rejection
leaves the counter unchanged is false. -/
theorem cooldown_rejection_mutates_counter_cex :
    respReason (trigger env2 cfg0 req1 (some "false") "x2" none sCool).outcome =
      some Reason.COOLDOWN ∧
    ¬ (trigger env2 cfg0 req1 (some "false") "x2" none sCool).store.count =
      sCool.count ∧
    (trigger env2 cfg0 req1 (some "false") "x2" none sCool).store.count =
      some ⟨1, some 86400⟩ := by decide

/-- C2 as amended: a real-mode rejection leaves the cooldown marker and
the lock key unchanged, and leaves the counter unchanged except that, when
the counter key was absent at the start of the request, it may have been
created with value 1 and the full window TTL (the pre-gating
`redis.set(countKey, 1, EX)` at `src/server/index.js:205`). -/
theorem real_rejection_state_effects (env : Env) (cfg : Config) (req : Req)
    (q : Option String) (corr : String) (failAt : Option CritOp) (s : Store) (r : Resp)
    (_hq : parseDryRun q = false)
    (ho : (trigger env cfg req q corr failAt s).outcome = Outcome.resp r)
    (hr : r.reason = Reason.NOT_IN_PACKAGE ∨ r.reason = Reason.NOT_AUTHORIZED ∨
      r.reason = Reason.COOLDOWN ∨ r.reason = Reason.SCAN_QUOTA_EXCEEDED ∨
      r.reason = Reason.IN_FLIGHT) :
    (trigger env cfg req q corr failAt s).store.cooldown = s.cooldown ∧
    (trigger env cfg req q corr failAt s).store.lock = s.lock ∧
    ((trigger env cfg req q corr failAt s).store.count = s.count ∨
      (¬ ttlOf s.count > 0 ∧
        (trigger env cfg req q corr failAt s).store.count =
          some ⟨1, some cfg.windowSeconds⟩)) := by
  rcases trigger_shape env cfg req q corr failAt s with
    ⟨hs, ha, hout⟩ | ⟨ha, hc, hn, hl, hacc, hre, hp⟩ | ⟨ha, hc, hn, hl, hacc, hrs⟩ |
    ⟨ha, hc, hl, hcnt, hacc, hrs⟩ | ⟨ha, hl, hacc, hre, hp⟩
  · rw [hs]
    exact ⟨rfl, rfl, Or.inl rfl⟩
  · rw [ho] at hre
    simp only [respReason, Option.some.injEq] at hre
    simp [hre] at hr
  · exact ⟨hc, hl, Or.inl hn⟩
  · exact ⟨hc, hl, hcnt⟩
  · rw [ho] at hre
    simp [respReason] at hre
    simp [hre] at hr

/-- Witness for C2 (amended) at the counterexample input: the `COOLDOWN`
rejection changes neither cooldown nor lock, and its counter effect is the
absent-key creation. -/
theorem real_rejection_state_effects_witness :
    (trigger env2 cfg0 req1 (some "false") "x2" none sCool).store.cooldown =
      sCool.cooldown ∧
    (trigger env2 cfg0 req1 (some "false") "x2" none sCool).store.lock = sCool.lock ∧
    ((trigger env2 cfg0 req1 (some "false") "x2" none sCool).store.count =
        sCool.count ∨
      (¬ ttlOf sCool.count > 0 ∧
        (trigger env2 cfg0 req1 (some "false") "x2" none sCool).store.count =
          some ⟨1, some cfg0.windowSeconds⟩)) :=
  real_rejection_state_effects env2 cfg0 req1 (some "false") "x2" none sCool
    ⟨false, Reason.COOLDOWN, some true, some false, none, none, some 50, some 3,
      some 1, none⟩
    rfl (by decide) (by decide)

/-- Counterexample to C4: a real-mode request that never acquires the
in-flight lock (it is rejected `IN_FLIGHT` because another holder exists)
nevertheless creates the counter key — a counter write outside the
critical section of the lock. -/
theorem counter_written_without_lock_cex :
    (trigger env2 cfg0 req1 (some "false") "x4" none sLocked).acquired = false ∧
    respReason (trigger env2 cfg0 req1 (some "false") "x4" none sLocked).outcome =
      some Reason.IN_FLIGHT ∧
    ¬ (trigger env2 cfg0 req1 (some "false") "x4" none sLocked).store.count =
      sLocked.count ∧
    (trigger env2 cfg0 req1 (some "false") "x4" none sLocked).store.count =
      some ⟨1, some 86400⟩ := by decide

/-- C4 as amended: for a real-mode request, an *existing* counter (TTL
still positive) is incremented or TTL-refreshed only by a run that holds
the in-flight lock; the only counter write a run can perform without
acquiring the lock is the creation of an absent counter with value 1 and
the full window TTL, which happens before lock acquisition
(`src/server/index.js:205`). -/
theorem counter_write_requires_lock_except_creation (env : Env) (cfg : Config)
    (req : Req) (q : Option String) (corr : String) (failAt : Option CritOp) (s : Store)
    (_hq : parseDryRun q = false)
    (ha : (trigger env cfg req q corr failAt s).acquired = false) :
    (ttlOf s.count > 0 → (trigger env cfg req q corr failAt s).store.count = s.count) ∧
    ((trigger env cfg req q corr failAt s).store.count = s.count ∨
      (¬ ttlOf s.count > 0 ∧
        (trigger env cfg req q corr failAt s).store.count =
          some ⟨1, some cfg.windowSeconds⟩)) := by
  rcases trigger_shape env cfg req q corr failAt s with
    ⟨hs, hacq, hout⟩ | ⟨hacq, hc, hn, hl, h5⟩ | ⟨hacq, hc, hn, hl, h5⟩ |
    ⟨hacq, hc, hl, hcnt, h5⟩ | ⟨hacq, hl, h5⟩
  · rw [hs]
    exact ⟨fun _ => rfl, Or.inl rfl⟩
  · exact ⟨fun _ => hn, Or.inl hn⟩
  · exact ⟨fun _ => hn, Or.inl hn⟩
  · refine ⟨fun ht => ?_, hcnt⟩
    rcases hcnt with h | ⟨hn0, _⟩
    · exact h
    · exact absurd ht hn0
  · rw [hacq] at ha
    cases ha

/-- Witness for C4 (amended): a real-mode request rejected while another
holder owns the lock satisfies the amended counter-write discipline. -/
theorem counter_write_requires_lock_except_creation_witness :
    (ttlOf sLocked.count > 0 →
      (trigger env2 cfg0 req1 (some "false") "x4" none sLocked).store.count =
        sLocked.count) ∧
    ((trigger env2 cfg0 req1 (some "false") "x4" none sLocked).store.count =
        sLocked.count ∨
      (¬ ttlOf sLocked.count > 0 ∧
        (trigger env2 cfg0 req1 (some "false") "x4" none sLocked).store.count =
          some ⟨1, some cfg0.windowSeconds⟩)) :=
  counter_write_requires_lock_except_creation env2 cfg0 req1 (some "false") "x4"
    none sLocked rfl (by decide)

/-- C8: the `products` field computed by `normalizeProducts` has at most 5
entries, has no duplicates, and each entry is the keyword-table image of
the normalized form (lower-cased, trimmed, punctuation stripped) of some
input term; moreover every accepted response (dry-run, and real `OK`)
carries exactly this list in its `products` field. -/
theorem products_normalized_dedup_capped (kw : String → Option String)
    (ts ps : List String) :
    (normalizeProducts kw ts ps).length ≤ 5 ∧
    (normalizeProducts kw ts ps).Nodup ∧
    (∀ x ∈ normalizeProducts kw ts ps,
      ¬ x = "" ∧ ∃ t ∈ ts ++ ps, x = kwLookup kw (jsNormalizeTerm t)) ∧
    (∀ (env : Env) (cfg : Config) (req : Req) (q : Option String) (corr : String)
      (failAt : Option CritOp) (s : Store) (r : Resp),
      (trigger env cfg req q corr failAt s).outcome = Outcome.resp r →
      r.accepted = true →
      r.products = some (normalizeProducts env.keywords req.search_terms req.products)) := by
  refine ⟨List.length_take_le _ _, ?_, ?_, ?_⟩
  · exact ((nodup_dedupFirst _).filter _).sublist (List.take_sublist _ _)
  · intro x hx
    have hf := List.mem_of_mem_take hx
    have hne := List.of_mem_filter hf
    have hd := mem_dedupFirst (List.mem_of_mem_filter hf)
    rcases List.mem_map.mp hd with ⟨u, hu, rfl⟩
    rcases List.mem_map.mp hu with ⟨t, ht, rfl⟩
    refine ⟨by simpa using hne, t, ht, rfl⟩
  · intro env cfg req q corr failAt s r ho hacc
    rcases trigger_shape env cfg req q corr failAt s with
      ⟨hs, hacq, hout⟩ | ⟨hacq, hc, hn, hl, hac, hre, hp⟩ | ⟨hacq, hc, hn, hl, hac, hrs⟩ |
      ⟨hacq, hc, hl, hcnt, hac, hrs⟩ | ⟨hacq, hl, hac, hre, hp⟩
    · cases Outcome.resp.inj (ho.symm.trans hout)
      simp [baseResp] at hacc
    · rw [ho] at hp
      simp only [respProducts, Option.some.injEq] at hp
      exact hp
    · rw [ho] at hac
      simp only [respAccepted, Option.some.injEq] at hac
      rw [hacc] at hac
      cases hac
    · rw [ho] at hac
      simp only [respAccepted, Option.some.injEq] at hac
      rw [hacc] at hac
      cases hac
    · rw [ho] at hp
      simp [respProducts] at hp
      exact hp

/-- Witness for C8: the bound, dedup, shape and response-linkage at
concrete inputs. -/
theorem products_normalized_dedup_capped_witness :
    (normalizeProducts (fun _ => none) ["Roofing!", "roofing", " ", "Gutters"] []).length ≤ 5 ∧
    (normalizeProducts (fun _ => none) ["Roofing!", "roofing", " ", "Gutters"] []).Nodup ∧
    (¬ "roofing" = "" ∧ ∃ t ∈ ["Roofing!", "roofing", " ", "Gutters"] ++ ([] : List String),
      "roofing" = kwLookup (fun _ => none) (jsNormalizeTerm t)) ∧
    (⟨true, Reason.OK, some true, some true, some true, some false, none, some 1, some 0,
      some []⟩ : Resp).products =
      some (normalizeProducts env1.keywords req1.search_terms req1.products) :=
  ⟨(products_normalized_dedup_capped (fun _ => none)
      ["Roofing!", "roofing", " ", "Gutters"] []).1,
    (products_normalized_dedup_capped (fun _ => none)
      ["Roofing!", "roofing", " ", "Gutters"] []).2.1,
    (products_normalized_dedup_capped (fun _ => none)
      ["Roofing!", "roofing", " ", "Gutters"] []).2.2.1 "roofing" (by decide),
    (products_normalized_dedup_capped (fun _ => none)
      ["Roofing!", "roofing", " ", "Gutters"] []).2.2.2 env1 cfg0 req1 none "w8" none s0
      ⟨true, Reason.OK, some true, some true, some true, some false, none, some 1, some 0,
        some []⟩ (by decide) rfl⟩

/-- C1 evaluated at its failing input (`scans_allowed = 1`, section
enabled, empty store, real mode): the first real execution — whose
current-window usage is 0, strictly below the allowance — is rejected
`SCAN_QUOTA_EXCEEDED` while still creating the counter; the second real
execution inside the same window — usage 1, equal to the allowance, and
the (N+1)-th with N = 1 — is accepted `OK` and advances the counter to 2.
Both directions contradict the claimed equivalence (`SCAN_QUOTA_EXCEEDED`
iff usage `>= scans_allowed`): the eligibility formula
`scans_used <= scans_allowed - 1 || ttlBefore > 0`
(`src/server/index.js:209`) is true whenever the counter pre-exists and
false on the very first scan of a one-scan plan. -/
theorem quota_gate_formula_bug_eval :
    respReason (trigger env1 cfg0 req1 (some "false") "x1" none s0).outcome =
      some Reason.SCAN_QUOTA_EXCEEDED ∧
    (trigger env1 cfg0 req1 (some "false") "x1" none s0).store.count =
      some ⟨1, some 86400⟩ ∧
    (trigger env1 cfg0 req1 (some "false") "x1" none s0).store.cooldown = none ∧
    respReason (trigger env1 cfg0 req1 (some "false") "x1b" none
      (trigger env1 cfg0 req1 (some "false") "x1" none s0).store).outcome =
      some Reason.OK ∧
    (trigger env1 cfg0 req1 (some "false") "x1b" none
      (trigger env1 cfg0 req1 (some "false") "x1" none s0).store).store.count =
      some ⟨2, some 86400⟩ := by decide

/-- C3 evaluated at its failing input (`scans_allowed = 1`, section
enabled, empty store): the dry-mode request reports
`real_eligible_now = true` (usage 0 < allowance 1), yet the immediately
following real-mode request on the resulting store — with no third-party
mutation in between — is rejected `SCAN_QUOTA_EXCEEDED`, because the
dry-run predicate is `scans_used < scans_allowed` while the real path uses
`scans_used <= scans_allowed - 1 || ttlBefore > 0` with `scans_used`
already set to 1 for an absent counter. -/
theorem dry_real_eligibility_mismatch_eval :
    respRealEligibleNow (trigger env1 cfg0 req1 none "x3" none s0).outcome =
      some (some true) ∧
    respReason (trigger env1 cfg0 req1 (some "false") "x3b" none
      (trigger env1 cfg0 req1 none "x3" none s0).store).outcome =
      some Reason.SCAN_QUOTA_EXCEEDED := by decide
